import Mathlib

/-!
Verification development for the istioctl Kubernetes client helper
(pkg/kube/client.go).  The external cluster API (pod listing, proxy
subresource requests, SPDY exec, port forwarding) is modelled as oracles
supplied to each operation; the control logic of the client functions is
translated directly from the Go source.
-/

namespace IstioKube

/-- The control-plane revision label key, label.IstioRev from istio.io/api. -/
def istioRevLabel : String := "istio.io/rev"

/-- A cluster pod as seen by the client: name, its Kubernetes
scope (the Namespace field), and its label map. -/
structure Pod where
  name : String
  ns : String
  labels : List (String × String)
deriving Repr, DecidableEq

/-- Lookup of pod.Labels, key, returning the Go zero value for a missing key. -/
def labelGet (pod : Pod) (key : String) : String :=
  match pod.labels.find? (fun kv => kv.1 = key) with
  | some kv => kv.2
  | none => ""

/-- Lookup in a query-parameter map modelled as an association list. -/
def lookupParam (params : List (String × String)) (key : String) : Option String :=
  match params with
  | [] => none
  | (k, v) :: rest => if k = key then some v else lookupParam rest key

/-- Go map assignment on the association-list model: overwrite the existing
entry for the key, or add one at the end. -/
def setParam (params : List (String × String)) (key v : String) : List (String × String) :=
  match params with
  | [] => [(key, v)]
  | (k, w) :: rest => if k = key then (key, v) :: rest else (k, w) :: setParam rest key v

/-- The revision merge at the top of client.GetIstioPods: when the stored
revision is non-empty it is appended to an existing labelSelector with a
comma, or set standalone; an empty revision leaves the params untouched. -/
def mergeRevision (revision : String) (params : List (String × String)) :
    List (String × String) :=
  if revision = "" then params
  else
    match lookupParam params "labelSelector" with
    | some ls =>
        setParam params "labelSelector" (ls ++ "," ++ istioRevLabel ++ "=" ++ revision)
    | none =>
        setParam params "labelSelector" (istioRevLabel ++ "=" ++ revision)

/-- The external cluster API consumed by the client, as oracles.
listPods is the GET pods query of GetIstioPods (scope and final params in,
decoded PodList or transport/decode failure out); doRaw is
proxyGet(name, scope, path, port).DoRaw, returning raw response bytes as a
string or a failure. -/
structure Cluster where
  listPods : String → List (String × String) → Except String (List Pod)
  doRaw : String → String → String → Nat → Except String String

/-- client.GetIstioPods: merge the stored revision into the params, issue the
pod-list query, and wrap a query failure; the pod items are returned as-is,
a list of zero pods included. -/
def GetIstioPods (cl : Cluster) (revision : String) (ns : String)
    (params : List (String × String)) : Except String (List Pod) :=
  match cl.listPods ns (mergeRevision revision params) with
  | .error e => .error ("unable to retrieve Pods: " ++ e)
  | .ok pods => .ok pods

/-- The fixed selector params AllDiscoveryDo passes to GetIstioPods. -/
def allDiscoveryParams : List (String × String) :=
  [("labelSelector", "app=istiod"), ("fieldSelector", "status.phase=Running")]

/-- The loop body of AllDiscoveryDo: iterate the pilots in order, issuing
proxyGet(pilot, path, 8080); a per-pod failure is returned immediately, a
success is recorded in the result map only when the payload is non-empty. -/
def allDiscoveryLoop (cl : Cluster) (path : String) (acc : List (String × String)) :
    List Pod → Except String (List (String × String))
  | [] => .ok acc
  | pilot :: rest =>
    match cl.doRaw pilot.name pilot.ns path 8080 with
    | .error e => .error e
    | .ok res =>
        allDiscoveryLoop cl path
          (if res.length > 0 then acc ++ [(pilot.name, res)] else acc) rest

/-- client.AllDiscoveryDo: resolve the istiod pods, fail when none were
found, then run the per-pilot loop. -/
def AllDiscoveryDo (cl : Cluster) (revision : String) (pilotNamespace : String)
    (path : String) : Except String (List (String × String)) :=
  match GetIstioPods cl revision pilotNamespace allDiscoveryParams with
  | .error e => .error e
  | .ok pilots =>
    if pilots.length = 0 then .error "unable to find any Pilot instances"
    else allDiscoveryLoop cl path [] pilots

end IstioKube

namespace IstioKube

/-- Helper for splitDash: walk the characters, cutting at each hyphen; cur
holds the characters of the current segment in reverse. -/
def splitDashAux : List Char → List Char → List String
  | [], cur => [String.mk cur.reverse]
  | c :: rest, cur =>
    if c = '-' then String.mk cur.reverse :: splitDashAux rest []
    else splitDashAux rest (c :: cur)

/-- The Go strings.Split(s, hyphen) used on the version payload: cut the
string at every hyphen, keeping empty segments, so the result always has at
least one element. -/
def splitDash (s : String) : List String := splitDashAux s.data []

/-- The Go strings.Join(parts, hyphen) used to rebuild the version from the
leading segments. -/
def joinDash : List String → String
  | [] => ""
  | [s] => s
  | s :: rest => s ++ "-" ++ joinDash rest

/-- One per-component entry of the version.MeshInfo aggregate built by
GetIstioVersions; the BuildInfo sub-struct of version.ServerInfo is
flattened into the fields it sets. -/
structure ServerInfo where
  component : String
  version : String
  gitTag : String
  gitRevision : String
  buildStatus : String
deriving Repr, DecidableEq

/-- The version-string parsing in GetIstioVersions: split on a hyphen; with
three or more segments the last two are gitRevision and buildStatus and the
rest are rejoined as the version (also copied to gitTag); with fewer, the
whole string is the version and the other fields keep their zero values. -/
def parseServerVersion (component result : String) : ServerInfo :=
  let versionParts := splitDash result
  let nParts := versionParts.length
  if 3 ≤ nParts then
    let v := joinDash (versionParts.take (nParts - 2))
    { component := component, version := v, gitTag := v,
      gitRevision := versionParts.getD (nParts - 2) "",
      buildStatus := versionParts.getD (nParts - 1) "" }
  else
    { component := component, version := result, gitTag := "",
      gitRevision := "", buildStatus := "" }

/-- The fixed selector params GetIstioVersions passes to GetIstioPods. -/
def versionsParams : List (String × String) :=
  [("labelSelector", "istio,istio!=ingressgateway,istio!=egressgateway,istio!=ilbgateway"),
   ("fieldSelector", "status.phase=Running")]

/-- The loop body of GetIstioVersions: probe each pod at /version on 15014;
a failure is appended to the combined error list and the loop continues; a
success contributes a parsed entry only when the payload is non-empty. -/
def getVersionsLoop (cl : Cluster) (res : List ServerInfo) (errs : List String) :
    List Pod → List ServerInfo × List String
  | [] => (res, errs)
  | pod :: rest =>
    match cl.doRaw pod.name pod.ns "/version" 15014 with
    | .error e =>
        getVersionsLoop cl res
          (errs ++ ["error port-forewarding into " ++ pod.name ++ " : " ++ e]) rest
    | .ok result =>
        if result.length > 0 then
          getVersionsLoop cl
            (res ++ [parseServerVersion (labelGet pod "istio") result]) errs rest
        else
          getVersionsLoop cl res errs rest

/-- client.GetIstioVersions: resolve the running control-plane pods, fail
when none were found, then run the probing loop; the Go function returns the
aggregate together with the (possibly empty) combined multierror, modelled
here as the pair of the aggregate and the list of recorded failures. -/
def GetIstioVersions (cl : Cluster) (revision : String) (ns : String) :
    Except String (List ServerInfo × List String) :=
  match GetIstioPods cl revision ns versionsParams with
  | .error e => .error e
  | .ok pods =>
    if pods.length = 0 then
      .error ("no running Istio pods in \"" ++ ns ++ "\"")
    else .ok (getVersionsLoop cl [] [] pods)

/-- The per-pod success contribution of the GetIstioVersions loop: the parsed
entry when the /version probe succeeds with a non-empty payload, nothing
otherwise. -/
def versionSuccess (cl : Cluster) (pod : Pod) : Option ServerInfo :=
  match cl.doRaw pod.name pod.ns "/version" 15014 with
  | .ok result =>
      if result.length > 0 then some (parseServerVersion (labelGet pod "istio") result)
      else none
  | .error _ => none

/-- The per-pod failure contribution of the GetIstioVersions loop: the
message recorded in the combined error when the /version probe fails. -/
def versionFailure (cl : Cluster) (pod : Pod) : Option String :=
  match cl.doRaw pod.name pod.ns "/version" 15014 with
  | .error e => some ("error port-forewarding into " ++ pod.name ++ " : " ++ e)
  | .ok _ => none

/-- Modelled from the spec: the collect-all fan-out the spec attributes to
AllDiscoveryDo — every pilot is attempted, successes with a non-empty
payload are accumulated into the mapping, and every failure is appended to
a combined error list instead of aborting.  Stated only for comparison
against the AllDiscoveryDo definition translated from the code. -/
def specCollectAllDiscovery (cl : Cluster) (path : String) (pilots : List Pod) :
    List (String × String) × List String :=
  (pilots.filterMap (fun p =>
      match cl.doRaw p.name p.ns path 8080 with
      | .ok r => if r.length > 0 then some (p.name, r) else none
      | .error _ => none),
   pilots.filterMap (fun p =>
      match cl.doRaw p.name p.ns path 8080 with
      | .error e => some e
      | .ok _ => none))

/-- The port-forward tunnel oracle of EnvoyDo: whether
NewPortForwarder(pod, ns, 127.0.0.1, 0, 15000) succeeds, whether
fw.Start() succeeds, and the local address fw.Address() reports. -/
structure ForwardEnv where
  create : Except String Unit
  start : Except String Unit
  address : String

/-- The HTTP oracle of EnvoyDo: request construction, request execution
(returning the response-body handle content), and body read.  newRequest and
doRequest take the method, the URL, and the request body that EnvoyDo
supplies (none is the Go nil body). -/
structure HttpEnv where
  newRequest : String → String → Option String → Except String Unit
  doRequest : String → String → Option String → Except String String
  readAll : String → Except String String

/-- The formatError helper inside EnvoyDo. -/
def formatPortForwardError (e : String) : String :=
  "failure running port forward process: " ++ e

/-- The outcome of one EnvoyDo run, with a flag recording whether fw.Close()
ran before the return (the deferred close registered right after a
successful fw.Start()). -/
structure EnvoyOutcome where
  out : Except String String
  tunnelClosed : Bool
deriving Repr

/-- client.EnvoyDo: open a port forward to the pod, start it, and only then
register the deferred close; issue the HTTP request with a nil body against
the tunnel address (the byte-slice body argument is ignored, as the Go
parameter is the blank identifier), read the body, and return.  Every path
after the successful start carries tunnelClosed = true. -/
def EnvoyDo (pf : ForwardEnv) (http : HttpEnv) (method path : String)
    (_body : List Nat) : EnvoyOutcome :=
  match pf.create with
  | .error e => { out := .error e, tunnelClosed := false }
  | .ok _ =>
    match pf.start with
    | .error e => { out := .error (formatPortForwardError e), tunnelClosed := false }
    | .ok _ =>
      let url := "http://" ++ pf.address ++ "/" ++ path
      match http.newRequest method url none with
      | .error e => { out := .error (formatPortForwardError e), tunnelClosed := true }
      | .ok _ =>
        match http.doRequest method url none with
        | .error e => { out := .error (formatPortForwardError e), tunnelClosed := true }
        | .ok respBody =>
          match http.readAll respBody with
          | .error e => { out := .error (formatPortForwardError e), tunnelClosed := true }
          | .ok outBytes => { out := .ok outBytes, tunnelClosed := true }

/-- The exec oracle of PodExec: transport construction, SPDY executor
construction, and the streamed run itself, which yields the optional stream
failure together with the captured stdout and stderr buffers as a function
of the command fields. -/
structure ExecEnv where
  roundTripper : Except String Unit
  executor : Except String Unit
  stream : List String → Option String × String × String

/-- An approximation of the Go strings.Fields split used on the command. -/
def goFields (s : String) : List String :=
  (s.splitOn " ").filter (fun w => w ≠ "")

/-- The deferred error wrapping of PodExec: a non-nil error with captured
stderr is first wrapped together with the stderr text, and the result is
then wrapped once more with the same target identity (the wrap with stderr
is not followed by an early return in the Go source). -/
def wrapExecError (podName podNamespace container : String)
    (e : String) (stderr : String) : String :=
  let e1 :=
    if 0 < stderr.length then
      "error exec\x27ing into " ++ podName ++ "/" ++ podNamespace ++ " " ++ container ++
        " container: " ++ e ++ "\n" ++ stderr
    else e
  "error exec\x27ing into " ++ podName ++ "/" ++ podNamespace ++ " " ++ container ++
    " container: " ++ e1

/-- client.PodExec: build the exec request for the command fields, obtain
the transport and executor, stream with stdout and stderr captured, and
return the buffers; the deferred wrap rewrites any non-nil error, using the
stderr captured so far (empty on the two early returns). -/
def PodExec (env : ExecEnv) (podName podNamespace container command : String) :
    String × String × Option String :=
  match env.roundTripper with
  | .error e => ("", "", some (wrapExecError podName podNamespace container e ""))
  | .ok _ =>
    match env.executor with
    | .error e => ("", "", some (wrapExecError podName podNamespace container e ""))
    | .ok _ =>
      match env.stream (goFields command) with
      | (some e, stdoutBuf, stderrBuf) =>
          (stdoutBuf, stderrBuf,
            some (wrapExecError podName podNamespace container e stderrBuf))
      | (none, stdoutBuf, stderrBuf) => (stdoutBuf, stderrBuf, none)

/-- The fields of rest.Config the claims need: any record value suffices to
state the copy discipline of RESTConfig. -/
structure RestConfig where
  host : String
  apiPath : String
  bearerToken : String
deriving Repr, DecidableEq

/-- A heap of rest.Config objects addressed by allocation index, with a
bump allocator; addresses below next are the allocated ones. -/
structure ConfigHeap where
  cells : Nat → RestConfig
  next : Nat

/-- Dereference a config pointer. -/
def readConfig (h : ConfigHeap) (a : Nat) : RestConfig := h.cells a

/-- Mutate the config object behind a pointer. -/
def writeConfig (h : ConfigHeap) (a : Nat) (v : RestConfig) : ConfigHeap :=
  { cells := fun b => if b = a then v else h.cells b, next := h.next }

/-- The client object: it stores a pointer to its rest.Config (field
config) and the construction-time revision string. -/
structure ClientObj where
  configAddr : Nat
  revision : String

/-- client.RESTConfig: cpy := star c.config; return ampersand cpy — a fresh
object is allocated holding a copy of the config value the client points
to, and the pointer to the fresh object is returned. -/
def RESTConfig (h : ConfigHeap) (c : ClientObj) : Nat × ConfigHeap :=
  let addr := h.next
  (addr,
   { cells := fun b => if b = addr then h.cells c.configAddr else h.cells b,
     next := h.next + 1 })

/-- A concrete istiod pod used by the concrete evaluations below. -/
def podA : Pod := { name := "istiod-a", ns := "istio-system", labels := [("istio", "pilot")] }

/-- A second concrete istiod pod. -/
def podB : Pod := { name := "istiod-b", ns := "istio-system", labels := [("istio", "pilot")] }

/-- A concrete cluster whose pod list query always returns the two pods and
whose proxy probe fails on podA with e1 and succeeds on podB with payload x. -/
def mixedCluster : Cluster :=
  { listPods := fun _ _ => .ok [podA, podB],
    doRaw := fun name _ _ _ => if name = "istiod-a" then .error "e1" else .ok "x" }

/-- A concrete cluster whose pod list query matches no pods and whose
probes succeed with an empty payload. -/
def emptyCluster : Cluster :=
  { listPods := fun _ _ => .ok [], doRaw := fun _ _ _ _ => .ok "" }

end IstioKube

namespace IstioKube

/-- Writing a key through setParam makes it the value lookupParam finds. -/
theorem lookupParam_setParam (params : List (String × String)) (key v : String) :
    lookupParam (setParam params key v) key = some v := by
  induction params with
  | nil => simp [setParam, lookupParam]
  | cons kv rest ih =>
    obtain ⟨k, w⟩ := kv
    by_cases h : k = key
    · simp [setParam, h, lookupParam]
    · simp [setParam, h, lookupParam, ih]

/-- C1: GetIstioPods with a non-empty revision R issues the pod-list query
with labelSelector L,(rev-label)=R when a labelSelector entry L exists and
with (rev-label)=R alone when none does; with an empty revision the params
reach the query unchanged. -/
theorem getIstioPods_revision_merge (cl : Cluster) (revision ns : String)
    (params : List (String × String)) :
    (revision ≠ "" →
      (∀ l, lookupParam params "labelSelector" = some l →
        lookupParam (mergeRevision revision params) "labelSelector" =
          some (l ++ "," ++ istioRevLabel ++ "=" ++ revision)) ∧
      (lookupParam params "labelSelector" = none →
        lookupParam (mergeRevision revision params) "labelSelector" =
          some (istioRevLabel ++ "=" ++ revision))) ∧
    (revision = "" → mergeRevision revision params = params) ∧
    GetIstioPods cl revision ns params =
      (match cl.listPods ns (mergeRevision revision params) with
       | .error e => .error ("unable to retrieve Pods: " ++ e)
       | .ok pods => .ok pods) := by
  refine ⟨fun hrev => ⟨fun l hl => ?_, fun hl => ?_⟩, fun hrev => ?_, rfl⟩
  · simp [mergeRevision, hrev, hl, lookupParam_setParam]
  · simp [mergeRevision, hrev, hl, lookupParam_setParam]
  · simp [mergeRevision, hrev]

/-- Witness for C1 at a concrete revision and params map. -/
theorem getIstioPods_revision_merge_witness :
    lookupParam (mergeRevision "canary" [("labelSelector", "app=istiod")]) "labelSelector" =
      some ("app=istiod," ++ istioRevLabel ++ "=" ++ "canary") :=
  ((getIstioPods_revision_merge emptyCluster "canary" "istio-system"
      [("labelSelector", "app=istiod")]).1 (by decide)).1 "app=istiod" rfl

/-- C2 counterexample: a pod-list query matching zero pods makes
GetIstioPods return the empty pod list as a success, not an error. -/
theorem getIstioPods_empty_success_counterexample :
    GetIstioPods emptyCluster "" "istio-system" [] = .ok [] := rfl

/-- C2 amended: GetIstioPods itself passes an empty resolution through as a
success; the zero-pod failure is produced by its callers, AllDiscoveryDo and
GetIstioVersions, which refuse an empty resolved set with their own
distinguishable errors. -/
theorem resolve_empty_handled_by_callers (cl : Cluster) (revision ns path : String)
    (h1 : cl.listPods ns (mergeRevision revision allDiscoveryParams) = .ok [])
    (h2 : cl.listPods ns (mergeRevision revision versionsParams) = .ok []) :
    GetIstioPods cl revision ns allDiscoveryParams = .ok [] ∧
    AllDiscoveryDo cl revision ns path = .error "unable to find any Pilot instances" ∧
    GetIstioVersions cl revision ns = .error ("no running Istio pods in \"" ++ ns ++ "\"") := by
  refine ⟨?_, ?_, ?_⟩ <;>
    simp [GetIstioPods, AllDiscoveryDo, GetIstioVersions, h1, h2]

/-- Witness for the amended C2 at a concrete empty cluster. -/
theorem resolve_empty_handled_by_callers_witness :
    AllDiscoveryDo emptyCluster "" "istio-system" "/debug/syncz" =
      .error "unable to find any Pilot instances" :=
  (resolve_empty_handled_by_callers emptyCluster "" "istio-system" "/debug/syncz" rfl rfl).2.1

/-- C3 counterexample: with two pilots where the first probe fails and the
second succeeds with a non-empty payload, AllDiscoveryDo returns the first
failure directly and never returns any result map, while the collect-all
aggregation the spec describes would keep the second success and combine
the failure into the error list. -/
theorem allDiscoveryDo_abort_counterexample :
    AllDiscoveryDo mixedCluster "" "istio-system" "/debug/syncz" = .error "e1" ∧
    specCollectAllDiscovery mixedCluster "/debug/syncz" [podA, podB] =
      ([("istiod-b", "x")], ["e1"]) ∧
    ¬ ∃ m, AllDiscoveryDo mixedCluster "" "istio-system" "/debug/syncz" = .ok m := by
  refine ⟨rfl, by decide, ?_⟩
  rintro ⟨m, hm⟩
  exact Except.noConfusion hm

/-- C3 amended: the AllDiscoveryDo loop is the abort-on-first-error variant:
a per-pod failure short-circuits the loop and is returned directly, the
remaining pods unattempted and any accumulated successes dropped; only when
every probe succeeds does it return the map of non-empty successes. -/
theorem allDiscoveryDo_abort_on_first_error (cl : Cluster) (path : String)
    (acc : List (String × String)) :
    (∀ p rest e, cl.doRaw p.name p.ns path 8080 = .error e →
        allDiscoveryLoop cl path acc (p :: rest) = .error e) ∧
    (∀ pilots, (∀ p ∈ pilots, ∃ r, cl.doRaw p.name p.ns path 8080 = .ok r) →
        allDiscoveryLoop cl path acc pilots =
          .ok (acc ++ (specCollectAllDiscovery cl path pilots).1)) := by
  constructor
  · intro p rest e he
    simp [allDiscoveryLoop, he]
  · intro pilots
    induction pilots generalizing acc with
    | nil => intro _; simp [allDiscoveryLoop, specCollectAllDiscovery]
    | cons p rest ih =>
      intro hall
      obtain ⟨r, hr⟩ := hall p (by simp)
      have hrest : ∀ q ∈ rest, ∃ s, cl.doRaw q.name q.ns path 8080 = .ok s :=
        fun q hq => hall q (by simp [hq])
      by_cases hlen : r.length > 0
      · simp [allDiscoveryLoop, hr, hlen, ih _ hrest, specCollectAllDiscovery,
          List.filterMap_cons]
      · simp [allDiscoveryLoop, hr, hlen, ih _ hrest, specCollectAllDiscovery,
          List.filterMap_cons]

/-- Witness for the amended C3: the concrete mixed cluster aborts with the
first probe failure. -/
theorem allDiscoveryDo_abort_on_first_error_witness :
    allDiscoveryLoop mixedCluster "/debug/syncz" [] [podA, podB] = .error "e1" :=
  (allDiscoveryDo_abort_on_first_error mixedCluster "/debug/syncz" []).1 podA [podB] "e1" rfl

/-- C4: when the hyphen split of the payload has three or more segments
(that is, it decomposes as a non-empty front followed by two final
segments), the parsed result takes the two final segments as gitRevision
and buildStatus and rejoins the front as the version; with fewer than three
segments the whole payload becomes the version with empty gitRevision and
buildStatus; and the documented example parses as stated.  Parsing is a
total function, so it never fails. -/
theorem parseServerVersion_spec (c s : String) :
    (∀ front g b, splitDash s = front ++ [g, b] → front ≠ [] →
      (parseServerVersion c s).version = joinDash front ∧
      (parseServerVersion c s).gitRevision = g ∧
      (parseServerVersion c s).buildStatus = b ∧
      (parseServerVersion c s).component = c) ∧
    ((splitDash s).length < 3 →
      parseServerVersion c s =
        { component := c, version := s, gitTag := "", gitRevision := "", buildStatus := "" }) ∧
    parseServerVersion "pilot" "1.7-alpha.9c900ba-9c900ba74d10a1-Clean" =
      { component := "pilot", version := "1.7-alpha.9c900ba", gitTag := "1.7-alpha.9c900ba",
        gitRevision := "9c900ba74d10a1", buildStatus := "Clean" } := by
  refine ⟨fun front g b hsplit hfront => ?_, fun hlt => ?_, by decide⟩
  · have h1 : 0 < front.length := List.length_pos.mpr hfront
    have hlen : (splitDash s).length = front.length + 2 := by simp [hsplit]
    have h3 : 3 ≤ (splitDash s).length := by omega
    have hl2 : (front ++ [g, b]).length - 2 = front.length := by simp
    have hl1 : (front ++ [g, b]).length - 1 = front.length + 1 := by simp
    have htake : (splitDash s).take ((splitDash s).length - 2) = front := by
      rw [hsplit, hl2]
      exact List.take_left front [g, b]
    have hrev : ((splitDash s)[(splitDash s).length - 2]?).getD "" = g := by
      rw [hsplit, hl2]
      rw [List.getElem?_append_right (Nat.le_refl _)]
      simp
    have hbuild : ((splitDash s)[(splitDash s).length - 1]?).getD "" = b := by
      rw [hsplit, hl1]
      rw [List.getElem?_append_right (by omega)]
      simp
    refine ⟨?_, ?_, ?_, ?_⟩ <;>
      simp [parseServerVersion, if_pos h3, htake, hrev, hbuild]
  · simp only [parseServerVersion]
    rw [if_neg (by omega)]

/-- Witness for C4 at the documented version string. -/
theorem parseServerVersion_spec_witness :
    (parseServerVersion "pilot" "1.7-alpha.9c900ba-9c900ba74d10a1-Clean").version =
        "1.7-alpha.9c900ba" ∧
    (parseServerVersion "pilot" "1.7-alpha.9c900ba-9c900ba74d10a1-Clean").gitRevision =
        "9c900ba74d10a1" ∧
    (parseServerVersion "pilot" "1.7-alpha.9c900ba-9c900ba74d10a1-Clean").buildStatus =
        "Clean" := by
  have h := ((parseServerVersion_spec "pilot" "1.7-alpha.9c900ba-9c900ba74d10a1-Clean").1
      ["1.7", "alpha.9c900ba"] "9c900ba74d10a1" "Clean" (by decide) (by decide))
  exact ⟨h.1, h.2.1, h.2.2.1⟩

/-- The GetIstioVersions loop appends, to its accumulators, exactly the
per-pod success contributions and the per-pod failure messages, in pod
order. -/
theorem getVersionsLoop_eq (cl : Cluster) (pods : List Pod)
    (res : List ServerInfo) (errs : List String) :
    getVersionsLoop cl res errs pods =
      (res ++ pods.filterMap (versionSuccess cl),
       errs ++ pods.filterMap (versionFailure cl)) := by
  induction pods generalizing res errs with
  | nil => simp [getVersionsLoop]
  | cons p rest ih =>
    cases hp : cl.doRaw p.name p.ns "/version" 15014 with
    | error e =>
      simp [getVersionsLoop, hp, ih, versionSuccess, versionFailure, List.filterMap_cons]
    | ok r =>
      by_cases hr : r.length > 0
      · simp [getVersionsLoop, hp, hr, ih, versionSuccess, versionFailure,
          List.filterMap_cons]
      · simp [getVersionsLoop, hp, hr, ih, versionSuccess, versionFailure,
          List.filterMap_cons]

/-- A pod whose probe failed contributes no success entry. -/
theorem versionFailure_excludes_success (cl : Cluster) (p : Pod)
    (h : (versionFailure cl p).isSome) : versionSuccess cl p = none := by
  unfold versionFailure at h
  unfold versionSuccess
  cases hp : cl.doRaw p.name p.ns "/version" 15014 with
  | error e => simp [hp]
  | ok r => rw [hp] at h; simp at h

/-- C5: over a non-empty resolved pod set, GetIstioVersions returns the
aggregate of exactly the successful non-empty contributions together with
the list of every per-pod failure; the aggregate is non-empty whenever some
probe succeeded with a non-empty payload (success with recorded errors, not
total failure), the failure list is non-empty whenever some probe failed,
and when every probe fails the aggregate is empty while the combined error
is not. -/
theorem getIstioVersions_collect_all (cl : Cluster) (revision ns : String) (pods : List Pod)
    (hlist : cl.listPods ns (mergeRevision revision versionsParams) = .ok pods)
    (hne : pods ≠ []) :
    GetIstioVersions cl revision ns =
      .ok (pods.filterMap (versionSuccess cl), pods.filterMap (versionFailure cl)) ∧
    ((∃ p ∈ pods, (versionSuccess cl p).isSome) → pods.filterMap (versionSuccess cl) ≠ []) ∧
    ((∃ p ∈ pods, (versionFailure cl p).isSome) → pods.filterMap (versionFailure cl) ≠ []) ∧
    ((∀ p ∈ pods, (versionFailure cl p).isSome) →
      pods.filterMap (versionSuccess cl) = [] ∧ pods.filterMap (versionFailure cl) ≠ []) := by
  have hlen : ¬ pods.length = 0 := by
    simpa [List.length_eq_zero] using hne
  refine ⟨?_, fun hsome => ?_, fun hsome => ?_, fun hall => ⟨?_, ?_⟩⟩
  · simp [GetIstioVersions, GetIstioPods, hlist, hlen, getVersionsLoop_eq]
  · obtain ⟨p, hp, hps⟩ := hsome
    intro hnil
    rw [List.filterMap_eq_nil_iff] at hnil
    rw [hnil p hp] at hps
    simp at hps
  · obtain ⟨p, hp, hps⟩ := hsome
    intro hnil
    rw [List.filterMap_eq_nil_iff] at hnil
    rw [hnil p hp] at hps
    simp at hps
  · exact List.filterMap_eq_nil_iff.mpr
      (fun p hp => versionFailure_excludes_success cl p (hall p hp))
  · obtain ⟨p, hp⟩ := List.exists_mem_of_ne_nil pods hne
    intro hnil
    rw [List.filterMap_eq_nil_iff] at hnil
    have := hall p hp
    rw [hnil p hp] at this
    simp at this

/-- Witness for C5 at the concrete mixed cluster: one probe fails with e1
and one succeeds with payload x. -/
theorem getIstioVersions_collect_all_witness :
    GetIstioVersions mixedCluster "" "istio-system" =
      .ok ([podA, podB].filterMap (versionSuccess mixedCluster),
           [podA, podB].filterMap (versionFailure mixedCluster)) ∧
    [podA, podB].filterMap (versionSuccess mixedCluster) ≠ [] ∧
    [podA, podB].filterMap (versionFailure mixedCluster) ≠ [] := by
  have h := getIstioVersions_collect_all mixedCluster "" "istio-system" [podA, podB]
      rfl (by decide)
  exact ⟨h.1, h.2.1 ⟨podB, by decide, by decide⟩, h.2.2.1 ⟨podA, by decide, by decide⟩⟩

/-- A concrete tunnel environment that opens and starts successfully. -/
def demoForward : ForwardEnv :=
  { create := .ok (), start := .ok (), address := "127.0.0.1:45000" }

/-- A concrete HTTP environment whose request pipeline succeeds. -/
def demoHttp : HttpEnv :=
  { newRequest := fun _ _ _ => .ok (),
    doRequest := fun _ _ _ => .ok "config_dump_payload",
    readAll := fun s => .ok s }

/-- C6: once the port forward has been created and started, every exit path
of EnvoyDo closes the tunnel before returning: the deferred close runs on
the success path and on request-construction, request-execution and
body-read failures alike. -/
theorem envoyDo_tunnel_closed (pf : ForwardEnv) (http : HttpEnv) (method path : String)
    (body : List Nat) (hc : pf.create = .ok ()) (hs : pf.start = .ok ()) :
    (EnvoyDo pf http method path body).tunnelClosed = true := by
  simp only [EnvoyDo, hc, hs]
  split
  · rfl
  · split
    · rfl
    · split <;> rfl

/-- Witness for C6 at a concrete environment. -/
theorem envoyDo_tunnel_closed_witness :
    (EnvoyDo demoForward demoHttp "GET" "config_dump" []).tunnelClosed = true :=
  envoyDo_tunnel_closed demoForward demoHttp "GET" "config_dump" [] rfl rfl

/-- C9: the byte-slice body argument of EnvoyDo is ignored: the Go parameter
is the blank identifier and the HTTP request is built with a nil body, so
two runs differing only in the body argument are identical. -/
theorem envoyDo_ignores_body (pf : ForwardEnv) (http : HttpEnv) (method path : String)
    (b1 b2 : List Nat) :
    EnvoyDo pf http method path b1 = EnvoyDo pf http method path b2 := rfl

/-- A concrete exec environment whose remote command fails after writing a
diagnostic on stderr. -/
def demoExec : ExecEnv :=
  { roundTripper := .ok (), executor := .ok (),
    stream := fun _ => (some "command terminated with exit code 1", "", "remote diagnostic") }

/-- C7: when the remote command fails with non-empty captured stderr, the
error PodExec returns carries a message built from the pod, its scope and
the container identity, the underlying failure text, and the captured
stderr verbatim; in particular the stderr text is a literal suffix of the
message. -/
theorem podExec_stderr_in_error (env : ExecEnv)
    (podName podNamespace container command : String)
    (e stdoutBuf stderrBuf : String)
    (hrt : env.roundTripper = .ok ()) (hex : env.executor = .ok ())
    (hstream : env.stream (goFields command) = (some e, stdoutBuf, stderrBuf))
    (hse : 0 < stderrBuf.length) :
    (PodExec env podName podNamespace container command).2.2 =
      some ("error exec\x27ing into " ++ podName ++ "/" ++ podNamespace ++ " " ++ container ++
        " container: " ++
        ("error exec\x27ing into " ++ podName ++ "/" ++ podNamespace ++ " " ++ container ++
          " container: " ++ e ++ "\n" ++ stderrBuf)) ∧
    (∃ t, (PodExec env podName podNamespace container command).2.2 = some (t ++ stderrBuf)) := by
  have h1 : (PodExec env podName podNamespace container command).2.2 =
      some (wrapExecError podName podNamespace container e stderrBuf) := by
    simp [PodExec, hrt, hex, hstream]
  rw [h1]
  constructor
  · simp [wrapExecError, hse]
  · refine ⟨"error exec\x27ing into " ++ podName ++ "/" ++ podNamespace ++ " " ++ container ++
      " container: " ++
      ("error exec\x27ing into " ++ podName ++ "/" ++ podNamespace ++ " " ++ container ++
        " container: " ++ e ++ "\n"), ?_⟩
    simp [wrapExecError, hse, String.append_assoc]

/-- Witness for C7 at a concrete failing exec. -/
theorem podExec_stderr_in_error_witness :
    (∃ t, (PodExec demoExec "istiod-a" "istio-system" "discovery" "ls /bad").2.2 =
      some (t ++ "remote diagnostic")) :=
  (podExec_stderr_in_error demoExec "istiod-a" "istio-system" "discovery" "ls /bad"
    "command terminated with exit code 1" "" "remote diagnostic"
    rfl rfl rfl (by decide)).2

/-- C8: the fan-out aggregates hold only non-empty payloads, and a target
whose probe succeeds with an empty payload is silently skipped: every entry
of a map returned by the AllDiscoveryDo loop has a non-empty payload, an
empty-payload success leaves the AllDiscoveryDo loop and the
GetIstioVersions loop exactly as if the target were absent, and such a
target contributes neither a success entry nor a failure record. -/
theorem fanout_nonempty_payloads (cl : Cluster) (path : String) :
    (∀ acc pilots m, allDiscoveryLoop cl path acc pilots = .ok m →
        (∀ kv ∈ acc, kv.2 ≠ "") → ∀ kv ∈ m, kv.2 ≠ "") ∧
    (∀ p rest acc, cl.doRaw p.name p.ns path 8080 = .ok "" →
        allDiscoveryLoop cl path acc (p :: rest) = allDiscoveryLoop cl path acc rest) ∧
    (∀ p rest res errs, cl.doRaw p.name p.ns "/version" 15014 = .ok "" →
        getVersionsLoop cl res errs (p :: rest) = getVersionsLoop cl res errs rest) ∧
    (∀ p, cl.doRaw p.name p.ns "/version" 15014 = .ok "" →
        versionSuccess cl p = none ∧ versionFailure cl p = none) := by
  refine ⟨?_, ?_, ?_, ?_⟩
  · intro acc pilots
    induction pilots generalizing acc with
    | nil =>
      intro m hm hacc
      simp [allDiscoveryLoop] at hm
      exact hm ▸ hacc
    | cons p rest ih =>
      intro m hm hacc
      cases hp : cl.doRaw p.name p.ns path 8080 with
      | error e => simp [allDiscoveryLoop, hp] at hm
      | ok r =>
        simp only [allDiscoveryLoop, hp] at hm
        by_cases hr : r.length > 0
        · rw [if_pos hr] at hm
          refine ih (acc ++ [(p.name, r)]) m hm ?_
          intro kv hkv
          rcases List.mem_append.mp hkv with h | h
          · exact hacc kv h
          · simp at h
            intro hempty
            rw [h] at hempty
            simp at hempty
            rw [hempty] at hr
            simp at hr
        · rw [if_neg hr] at hm
          exact ih acc m hm hacc
  · intro p rest acc hp
    simp [allDiscoveryLoop, hp]
  · intro p rest res errs hp
    simp [getVersionsLoop, hp]
  · intro p hp
    constructor
    · simp [versionSuccess, hp]
    · simp [versionFailure, hp]

/-- Witness for C8: in the concrete empty-payload cluster, a pod probed
successfully with an empty payload leaves the loop untouched. -/
theorem fanout_nonempty_payloads_witness :
    allDiscoveryLoop emptyCluster "/debug/syncz" [] [podA] =
      allDiscoveryLoop emptyCluster "/debug/syncz" [] [] :=
  (fanout_nonempty_payloads emptyCluster "/debug/syncz").2.1 podA [] [] rfl

/-- A concrete one-cell heap holding the client configuration. -/
def demoHeap : ConfigHeap :=
  { cells := fun _ => { host := "https://cluster.local", apiPath := "/api", bearerToken := "t" },
    next := 1 }

/-- A concrete client pointing at the only allocated configuration cell. -/
def demoClient : ClientObj := { configAddr := 0, revision := "" }

/-- C10: RESTConfig allocates a fresh object holding a copy of the value
the client points to and returns a pointer distinct from the client field;
the copy initially equals the client configuration, and writing any value
through the returned pointer leaves the configuration behind the client
pointer unchanged (while the write is visible through the returned
pointer). -/
theorem restConfig_returns_copy (h : ConfigHeap) (c : ClientObj)
    (hv : c.configAddr < h.next) :
    (RESTConfig h c).1 ≠ c.configAddr ∧
    readConfig (RESTConfig h c).2 (RESTConfig h c).1 = readConfig h c.configAddr ∧
    (∀ v, readConfig (writeConfig (RESTConfig h c).2 (RESTConfig h c).1 v) c.configAddr =
        readConfig h c.configAddr) ∧
    (∀ v, readConfig (writeConfig (RESTConfig h c).2 (RESTConfig h c).1 v)
        (RESTConfig h c).1 = v) := by
  have hne : c.configAddr ≠ h.next := Nat.ne_of_lt hv
  refine ⟨?_, ?_, ?_, ?_⟩
  · simpa [RESTConfig] using fun heq => hne heq.symm
  · simp [RESTConfig, readConfig]
  · intro v
    simp [RESTConfig, readConfig, writeConfig, hne]
  · intro v
    simp [RESTConfig, readConfig, writeConfig]

/-- Witness for C10 at the concrete heap and client. -/
theorem restConfig_returns_copy_witness :
    (RESTConfig demoHeap demoClient).1 ≠ demoClient.configAddr ∧
    readConfig (writeConfig (RESTConfig demoHeap demoClient).2
        (RESTConfig demoHeap demoClient).1
        { host := "https://other", apiPath := "/api", bearerToken := "u" })
      demoClient.configAddr = readConfig demoHeap demoClient.configAddr := by
  have h := restConfig_returns_copy demoHeap demoClient (by decide)
  exact ⟨h.1, h.2.2.1 _⟩

end IstioKube
